import Mathlib

/-!
Shallow embedding of the spreadsheet-extraction engine of
`app_multiempresa.py` (functions `clean_text`, `normalize_key`, `get_float`,
`extract_cell_data` with its inner `find_near`, `extract_products` and
`process_full`).

Modelling conventions:
* A worksheet is a `Grid`: a list of rows (1-indexed when addressed), each a
  list of `Option String` cell values (`none` = empty cell).  Cell values are
  taken as the `str(...)` form of the underlying scalars; Python-falsy values
  (None, empty string, numeric 0) are modelled as `none` / `""`.
* Python `float` values are modelled as exact rationals `ℚ`; the claims under
  study only involve decimal values that a double represents exactly.
* Python's `str.upper` / `.strip` are modelled character-wise for the ASCII
  letters, the accented vowels the source replaces, and `ñ` — exactly the
  alphabet exercised by this engine's keyword sets.
-/

/-- Python-style list membership of a pattern at the head: `startsList n l`
is `true` iff `n` is a prefix of `l`. -/
def startsList : List Char → List Char → Bool
  | [], _ => true
  | _ :: _, [] => false
  | a :: as, b :: bs => a == b && startsList as bs

/-- `subOccurs n l` is `true` iff `n` occurs contiguously inside `l`
(Python's `n in l` on strings). -/
def subOccurs (n : List Char) : List Char → Bool
  | [] => n.isEmpty
  | c :: rest => startsList n (c :: rest) || subOccurs n rest

/-- Python `needle in hay` on strings. -/
def containsSub (hay needle : String) : Bool :=
  subOccurs needle.data hay.data

/-- Character-wise model of Python `str.upper` on the alphabet used by the
engine: ASCII lowercase letters, the five accented lowercase vowels, `ñ`. -/
def pyUpperChar (c : Char) : Char :=
  if c = 'á' then 'Á'
  else if c = 'é' then 'É'
  else if c = 'í' then 'Í'
  else if c = 'ó' then 'Ó'
  else if c = 'ú' then 'Ú'
  else if c = 'ñ' then 'Ñ'
  else if 'a' ≤ c ∧ c ≤ 'z' then Char.ofNat (c.toNat - 32)
  else c

/-- The accent replacement chain
`.replace('Á','A').replace('É','E').replace('Í','I').replace('Ó','O').replace('Ú','U')`
of `normalize_key`, character-wise (each replacement is single-char). -/
def deaccentChar (c : Char) : Char :=
  if c = 'Á' then 'A'
  else if c = 'É' then 'E'
  else if c = 'Í' then 'I'
  else if c = 'Ó' then 'O'
  else if c = 'Ú' then 'U'
  else c

/-- Python `str.strip()` on a character list. -/
def stripList (l : List Char) : List Char :=
  ((l.dropWhile Char.isWhitespace).reverse.dropWhile Char.isWhitespace).reverse

/-- Python `str.upper()`. -/
def pyUpper (s : String) : String :=
  ⟨s.data.map pyUpperChar⟩

/-- Python `str.strip()`. -/
def pyStrip (s : String) : String :=
  ⟨stripList s.data⟩

/-- `normalize_key(text)`: `str(text).upper().strip().replace('Á','A')…`.
The source guards with `if text:`; a falsy input (modelled `""`) already
normalizes to `""`, so the guard is invisible here. -/
def normalize_key (s : String) : String :=
  ⟨(stripList (s.data.map pyUpperChar)).map deaccentChar⟩

/-- `clean_text(text)`: `str(text).strip()` with `""` for falsy input
(`None` is modelled as `none`). -/
def clean_text (s : Option String) : String :=
  pyStrip (s.getD "")

/-- Characters kept by `re.sub(r'[^\d.,-]', '', s)`. -/
def keepNumChar (c : Char) : Bool :=
  c.isDigit || c == '.' || c == ',' || c == '-'

/-- Numeric value of a digit character, as a rational. -/
def digitVal (c : Char) : ℚ :=
  ((c.toNat - 48 : ℕ) : ℚ)

/-- Value of a digit list read as an integer part. -/
def intPartVal (l : List Char) : ℚ :=
  l.foldl (fun a c => a * 10 + digitVal c) 0

/-- Value of a digit list read as a fractional part (after the dot). -/
def fracPartVal (l : List Char) : ℚ :=
  l.foldr (fun c a => (digitVal c + a) / 10) 0

/-- Python `float(s)` restricted to strings over the alphabet
`digits ∪ matching-dot ∪ minus` (the only characters surviving `get_float`'s
cleaning): accepts `-` `?` `(digits [.digits*] | .digits+)`, else fails. -/
def pyFloat (cs : List Char) : Option ℚ :=
  let (neg, rest) :=
    match cs with
    | '-' :: t => (true, t)
    | _ => (false, cs)
  let ip := rest.takeWhile Char.isDigit
  let rest2 := rest.dropWhile Char.isDigit
  match rest2 with
  | [] =>
    if ip.isEmpty then none
    else some (if neg then -intPartVal ip else intPartVal ip)
  | '.' :: t =>
    if t.all Char.isDigit && !(ip.isEmpty && t.isEmpty) then
      some (if neg then -(intPartVal ip + fracPartVal t)
            else intPartVal ip + fracPartVal t)
    else none
  | _ => none

/-- `get_float(s)`: keep only `[\d.,-]`, drop commas, `float(...)`,
`0.0` on `None` or any parse failure. -/
def get_float (s : Option String) : ℚ :=
  match s with
  | none => 0
  | some s =>
    let cleaned := (s.data.filter keepNumChar).filter (fun c => !(c == ','))
    (pyFloat cleaned).getD 0

/-! ## The worksheet grid -/

/-- A worksheet: rows (1-indexed when addressed) of optional cell values. -/
abbrev Grid := List (List (Option String))

/-- `sheet.cell(row=i, column=c).value` (1-indexed; out of range = `None`). -/
def cellAt (g : Grid) (r c : Nat) : Option String :=
  match g.get? (r - 1) with
  | none => none
  | some row =>
    match row.get? (c - 1) with
    | none => none
    | some v => v

/-- The `cells` dict of `extract_cell_data`: every truthy cell value keyed by
its 1-based `(row, column)`, in row-major insertion order. -/
def cellsOf (g : Grid) : List ((Nat × Nat) × String) :=
  (g.enum.map (fun p => (p.1 + 1, p.2))).flatMap
    (fun rp =>
      (rp.2.enum.map (fun q => (q.1 + 1, q.2))).filterMap
        (fun cq =>
          match cq.2 with
          | none => none
          | some v => if v = "" then none else some ((rp.1, cq.1), v)))

/-- Dict membership/lookup `cells[(r, c)]`. -/
def lookupCell (cells : List ((Nat × Nat) × String)) (rc : Nat × Nat) :
    Option String :=
  (cells.find? (fun e => decide (e.1 = rc))).map (fun e => e.2)

/-- The label-matching test of `find_near`:
`any(normalize_key(k) in val_norm for k in keywords)`. -/
def matchesKeywords (ks : List String) (v : String) : Bool :=
  ks.any (fun k => containsSub (normalize_key v) (normalize_key k))

/-- The scan loop of `find_near`: walk the remaining dict entries; on a label
match probe right, right+1, and (if `lookDown`) the two cells below; if none
of those neighbours is present, keep scanning. -/
def findNearGo (cells : List ((Nat × Nat) × String)) (ks : List String)
    (lookDown : Bool) : List ((Nat × Nat) × String) → Option String
  | [] => none
  | (rc, v) :: rest =>
    if matchesKeywords ks v then
      match lookupCell cells (rc.1, rc.2 + 1) with
      | some w => some w
      | none =>
        match lookupCell cells (rc.1, rc.2 + 2) with
        | some w => some w
        | none =>
          if lookDown then
            match lookupCell cells (rc.1 + 1, rc.2) with
            | some w => some w
            | none =>
              match lookupCell cells (rc.1 + 2, rc.2) with
              | some w => some w
              | none => findNearGo cells ks lookDown rest
          else findNearGo cells ks lookDown rest
    else findNearGo cells ks lookDown rest

/-- `find_near(keywords, look_down)` over the truthy-cell dict. -/
def find_near (cells : List ((Nat × Nat) × String)) (ks : List String)
    (lookDown : Bool) : Option String :=
  findNearGo cells ks lookDown cells

/-! ## Product table detector (`extract_products`) -/

/-- The `cols` dict of `extract_products`: optional 1-based column index for
each of the four recognized column families. -/
structure Cols where
  desc : Option Nat
  qty : Option Nat
  price : Option Nat
  total : Option Nat
deriving DecidableEq

/-- One emitted product record. -/
structure Product where
  descripcion : String
  cantidad : ℚ
  precio : ℚ
  totalLinea : ℚ
deriving DecidableEq

/-- The header-row column assignment loop: `if "DESCRIPCION" in v: … elif
"CANTIDAD" … elif "PRECIO" … elif "TOTAL" in v and "CASES" not in v: …`,
later matches overwriting earlier ones. -/
def assignCols (row : List (Nat × Option String)) : Cols :=
  row.foldl
    (fun cols cq =>
      let v := normalize_key ((cq.2).getD "")
      if containsSub v "DESCRIPCION" then { cols with desc := some cq.1 }
      else if containsSub v "CANTIDAD" then { cols with qty := some cq.1 }
      else if containsSub v "PRECIO" then { cols with price := some cq.1 }
      else if containsSub v "TOTAL" && !containsSub v "CASES" then
        { cols with total := some cq.1 }
      else cols)
    ⟨none, none, none, none⟩

/-- The header-search loop: first row whose normalized texts contain both a
"DESCRIPCION" and a "CANTIDAD" marker, paired with its column assignment. -/
def findHeaderGo : List (Nat × List (Nat × Option String)) →
    Option (Nat × Cols)
  | [] => none
  | (r, row) :: rest =>
    let txts := row.map (fun cq => normalize_key ((cq.2).getD ""))
    if txts.any (fun t => containsSub t "DESCRIPCION") &&
        txts.any (fun t => containsSub t "CANTIDAD") then
      some (r, assignCols row)
    else findHeaderGo rest

/-- Rows (and their cells) enumerated with 1-based indices, as
`sheet.iter_rows()` yields them. -/
def enumGrid (g : Grid) : List (Nat × List (Nat × Option String)) :=
  g.enum.map (fun p =>
    (p.1 + 1, p.2.enum.map (fun q => (q.1 + 1, q.2))))

/-- Header detection of `extract_products`. -/
def findHeader (g : Grid) : Option (Nat × Cols) :=
  findHeaderGo (enumGrid g)

/-- The row-walk stop test:
`"TOTAL" in desc_str.upper() and len(desc_str) < 20`. -/
def stopCond (g : Grid) (dcol i : Nat) : Bool :=
  let descStr := clean_text (cellAt g i dcol)
  containsSub (pyUpper descStr) "TOTAL" && decide (descStr.length < 20)

/-- Quantity coercion for row `i`:
`get_float(sheet.cell(i, cols['qty']).value if 'qty' in cols else 0)`. -/
def rowQty (g : Grid) (cols : Cols) (i : Nat) : ℚ :=
  match cols.qty with
  | some c => get_float (cellAt g i c)
  | none => get_float (some "0")

/-- Unit-price coercion for row `i`. -/
def rowPrice (g : Grid) (cols : Cols) (i : Nat) : ℚ :=
  match cols.price with
  | some c => get_float (cellAt g i c)
  | none => get_float (some "0")

/-- Line-total coercion for row `i`. -/
def rowTotal (g : Grid) (cols : Cols) (i : Nat) : ℚ :=
  match cols.total with
  | some c => get_float (cellAt g i c)
  | none => get_float (some "0")

/-- The body of the row walk at row `i`: emit a record iff `price > 0`, with
`'Total Linea': total if total > 0 else qty*price`. -/
def emitRow (g : Grid) (cols : Cols) (dcol i : Nat) : Option Product :=
  let descStr := clean_text (cellAt g i dcol)
  let qty := rowQty g cols i
  let price := rowPrice g cols i
  let total := rowTotal g cols i
  if 0 < price then
    some ⟨descStr, qty, price, if 0 < total then total else qty * price⟩
  else none

/-- The sequential row walk: stop (`break`) on `stopCond`, else append the
emitted record (if any) and continue. -/
def scanRows (g : Grid) (cols : Cols) (dcol : Nat) :
    List Nat → List Product
  | [] => []
  | i :: rest =>
    if stopCond g dcol i then []
    else
      match emitRow g cols dcol i with
      | some p => p :: scanRows g cols dcol rest
      | none => scanRows g cols dcol rest

/-- `extract_products(sheet)`: detect the header, then walk rows
`header_row+1 .. max_row`. -/
def extract_products (g : Grid) : List Product :=
  match findHeader g with
  | none => []
  | some (hr, cols) =>
    match cols.desc with
    | none => []
    | some dcol => scanRows g cols dcol (List.range' (hr + 1) (g.length - hr))

/-! ## Header fields (`extract_cell_data`) and assembly (`process_full`) -/

/-- Python truthiness of an optional string. -/
def truthy (o : Option String) : Bool :=
  !(o.getD "" == "")

/-- `data['Cliente']`. -/
def clienteF (g : Grid) : Option String :=
  find_near (cellsOf g) ["CLIENTE", "CUSTOMER", "SOLD TO"] true

/-- `data['Num_Exp']`. -/
def numExpF (g : Grid) : Option String :=
  find_near (cellsOf g) ["EXP", "INVOICE NO", "FACTURA"] true

/-- `data['Fecha']`: the direct `FECHA`/`DATE` lookup, with the loose
day/month/year composition `f"{d}-{m}-{y}"` as fallback when all three
resolve truthy. -/
def fechaF (g : Grid) : Option String :=
  let cells := cellsOf g
  let f0 := find_near cells ["FECHA", "DATE"] true
  if truthy f0 then f0
  else
    let y := find_near cells ["YEAR", "AÑO"] true
    let m := find_near cells ["MONTH", "MES"] true
    let d := find_near cells ["DAY", "DIA"] true
    if truthy y && truthy m && truthy d then
      some (d.getD "" ++ "-" ++ m.getD "" ++ "-" ++ y.getD "")
    else f0

/-- `all_text = " ".join(cells.values()).upper()`. -/
def allTextF (g : Grid) : String :=
  pyUpper (String.intercalate " " ((cellsOf g).map (fun e => e.2)))

/-- `data['Moneda']`. -/
def monedaF (g : Grid) : Option String :=
  let t := allTextF g
  if containsSub t "DOLAR" || containsSub t "USD" then some "USD"
  else if containsSub t "EURO" || containsSub t "EUR" then some "EUR"
  else none

/-- `data['Incoterm']`. -/
def incotermF (g : Grid) : Option String :=
  (["FOB", "CIF", "CFR", "EXW", "FCA"]).find?
    (fun i => containsSub (allTextF g) i)

/-- `Observaciones_Detectadas`: first fragment longer than 30 characters that
carries none of the boilerplate markers, else `""`. -/
def observacionesF (raw : List String) : String :=
  let candidates := raw.filter (fun t => decide (30 < t.length))
  let cleaned := candidates.filter (fun t =>
    let tn := normalize_key t
    !(containsSub tn "SOCIEDAD" || containsSub tn "COMMERCIAL INVOICE" ||
      containsSub tn "BANK"))
  (cleaned.head?).getD ""

/-- `condicion_candidata`: first fragment containing a sale-condition
magic phrase. -/
def condicionF (raw : List String) : Option String :=
  raw.find? (fun t =>
    let tn := normalize_key t
    containsSub tn "BAJO CONDICION" || containsSub tn "CONSIGNACION" ||
      containsSub tn "UNDER CONDITION")

/-- `tc_candidate`: first fragment containing an exchange-rate marker. -/
def tipoCambioF (raw : List String) : Option String :=
  raw.find? (fun t =>
    let tn := normalize_key t
    containsSub tn "TIPO CAMBIO" || containsSub tn "EXCHANGE RATE")

/-- The `base_row` dict of `process_full`. -/
structure BaseRow where
  archivo : String
  cliente : Option String
  numExp : Option String
  fecha : Option String
  condicionVenta : String
  moneda : Option String
  incoterm : Option String
  observaciones : String
  tipoCambio : Option String
deriving DecidableEq

/-- One flattened output record: the header fields plus the product fields
(`none` when no product table was detected). -/
structure OutRow where
  base : BaseRow
  prod : Option Product
deriving DecidableEq

/-- `base_row` as built in `process_full` (the `Condicion_Venta` key exists
only when the magic phrase was found, so `get('Condicion_Venta','')` is
`getD ""` of the candidate). -/
def baseRow (name : String) (g : Grid) (raw : List String) : BaseRow :=
  { archivo := name
    cliente := clienteF g
    numExp := numExpF g
    fecha := fechaF g
    condicionVenta := (condicionF raw).getD ""
    moneda := monedaF g
    incoterm := incotermF g
    observaciones := observacionesF raw
    tipoCambio := tipoCambioF raw }

/-- `process_full`: one record per product, or a single header-only record
when no product was extracted.  `raw` is the fragment list produced by
`extract_all_xml_strings` (an enumeration of its deduplicated fragment set —
the Python `set` fixes no order, so the enumeration is a parameter here). -/
def process_full (name : String) (g : Grid) (raw : List String) :
    List OutRow :=
  let prods := extract_products g
  let base := baseRow name g raw
  match prods with
  | [] => [⟨base, none⟩]
  | ps => ps.map (fun p => ⟨base, some p⟩)

/-- The grid-determined portion of an output record: every field except the
three fragment-derived ones (`condicionVenta`, `observaciones`,
`tipoCambio`). -/
def headerPart (r : OutRow) :
    String × Option String × Option String × Option String × Option String ×
      Option String × Option Product :=
  (r.base.archivo, r.base.cliente, r.base.numExp, r.base.fecha, r.base.moneda,
    r.base.incoterm, r.prod)

/-! ## Concrete grids used in witnesses and counterexamples -/

/-- C1: header row, then a fully blank row, then a live product row. -/
def c1Grid : Grid :=
  [[some "DESCRIPCION", some "CANTIDAD", some "PRECIO"],
   [none, none, none],
   [some "PRODUCTO B", some "2", some "5"]]

/-- C2: a cell whose text extends the keyword without a token boundary,
with a right neighbour. -/
def c2Grid : Grid :=
  [[some "DESCRIPCIONADICIONAL", some "VALOR"]]

/-- C3: a data row whose total cell coerces to a negative value. -/
def c3Grid : Grid :=
  [[some "DESCRIPCION", some "CANTIDAD", some "PRECIO", some "TOTAL"],
   [some "X", some "2", some "3", some "-5"]]

/-- C3: total column absent, quantity 500, unit price 20. -/
def c3bGrid : Grid :=
  [[some "DESCRIPCION", some "CANTIDAD", some "PRECIO"],
   [some "CAJAS", some "500", some "20.0"]]

/-- C6: day/month/year anchors resolve, no direct FECHA/DATE anchor. -/
def c6Grid : Grid :=
  [[some "YEAR", some "2024"],
   [some "MONTH", some "03"],
   [some "DAY", some "15"]]

/-- C6: month anchor resolves but day and year do not. -/
def c6bGrid : Grid :=
  [[some "MONTH", some "03"]]

/-- C10: a row with no parseable price between header and a live row. -/
def c10Grid : Grid :=
  [[some "DESCRIPCION", some "CANTIDAD", some "PRECIO UNIT"],
   [some "SIN PRECIO", some "3", none],
   [some "ITEM REAL", some "7", some "4"]]

/-- The spec's worked product-table example. -/
def c10SpecGrid : Grid :=
  [[some "", some "DESCRIPCION", some "CANTIDAD", some "PRECIO UNIT",
    some "TOTAL"],
   [some "", some "CAJAS DE ARANDANOS", some "1000", some "15.00",
    some "15000.00"],
   [none, none, none, none, none]]

/-- C9: a long, non-boilerplate fragment. -/
def c9A : String := "AAAAAAAAAAAAAAAAAAAAAAAAAAAAAAAAA"

/-- C9: a second long, non-boilerplate fragment. -/
def c9B : String := "ZZZZZZZZZZZZZZZZZZZZZZZZZZZZZZZZZ"

/-! ## Helper lemmas -/

theorem startsList_iff (n : List Char) : ∀ l, startsList n l = true ↔ ∃ t, l = n ++ t := by
  induction n with
  | nil => intro l; simp [startsList]
  | cons a as ih =>
    intro l
    cases l with
    | nil => simp [startsList]
    | cons b bs =>
      rw [startsList, Bool.and_eq_true, beq_iff_eq, ih]
      constructor
      · rintro ⟨rfl, t, rfl⟩; exact ⟨t, rfl⟩
      · rintro ⟨t, h⟩
        injection h with h1 h2
        exact ⟨h1.symm, t, h2⟩

theorem subOccurs_iff (n : List Char) : ∀ l, subOccurs n l = true ↔ ∃ p t, l = p ++ n ++ t := by
  intro l
  induction l with
  | nil =>
    simp [subOccurs, List.isEmpty_iff]
  | cons c cs ih =>
    rw [subOccurs, Bool.or_eq_true, startsList_iff, ih]
    constructor
    · rintro (⟨t, h⟩ | ⟨p, t, h⟩)
      · exact ⟨[], t, by simpa using h⟩
      · exact ⟨c :: p, t, by simp [h]⟩
    · rintro ⟨p, t, h⟩
      cases p with
      | nil => exact Or.inl ⟨t, by simpa using h⟩
      | cons x xs =>
        injection h with h1 h2
        exact Or.inr ⟨xs, t, h2⟩

theorem containsSub_self (s : String) : containsSub s s = true :=
  (subOccurs_iff s.data s.data).mpr ⟨[], [], by simp⟩

theorem scanRows_eq_takeWhile (g : Grid) (cols : Cols) (dcol : Nat) :
    ∀ l, scanRows g cols dcol l =
      (l.takeWhile (fun i => !stopCond g dcol i)).filterMap (emitRow g cols dcol) := by
  intro l
  induction l with
  | nil => rfl
  | cons i rest ih =>
    rw [scanRows, List.takeWhile_cons]
    by_cases h : stopCond g dcol i
    · simp [h]
    · cases hE : emitRow g cols dcol i <;> simp [h, hE, ih]

theorem emitRow_some_eq (g : Grid) (cols : Cols) (dcol i : Nat) (p : Product)
    (h : emitRow g cols dcol i = some p) :
    0 < rowPrice g cols i ∧
      p = ⟨clean_text (cellAt g i dcol), rowQty g cols i, rowPrice g cols i,
        if 0 < rowTotal g cols i then rowTotal g cols i
        else rowQty g cols i * rowPrice g cols i⟩ := by
  by_cases hp : 0 < rowPrice g cols i
  · simp only [emitRow] at h
    rw [if_pos hp] at h
    exact ⟨hp, (Option.some.inj h).symm⟩
  · simp only [emitRow] at h
    rw [if_neg hp] at h
    exact Option.noConfusion h

theorem scanRows_all_pos (g : Grid) (cols : Cols) (dcol : Nat) :
    ∀ l, (scanRows g cols dcol l).all (fun p => decide ((0 : ℚ) < p.precio)) = true := by
  intro l
  induction l with
  | nil => rfl
  | cons i rest ih =>
    rw [scanRows]
    by_cases h : stopCond g dcol i
    · simp [h]
    · cases hE : emitRow g cols dcol i with
      | none => simpa [h, hE] using ih
      | some p =>
        have hp := (emitRow_some_eq g cols dcol i p hE).1
        have hpp : (0 : ℚ) < p.precio := by
          rw [(emitRow_some_eq g cols dcol i p hE).2]; exact hp
        simp [h, hE, List.all_cons, hpp, ih]

theorem findNearGo_none (cells : List ((Nat × Nat) × String)) (ks : List String)
    (ld : Bool) :
    ∀ rem, rem.all (fun e => !matchesKeywords ks e.2) = true →
      findNearGo cells ks ld rem = none := by
  intro rem
  induction rem with
  | nil => intro _; rfl
  | cons e rest ih =>
    intro h
    rw [List.all_cons, Bool.and_eq_true] at h
    obtain ⟨h1, h2⟩ := h
    rw [Bool.not_eq_true'] at h1
    obtain ⟨rc, v⟩ := e
    rw [findNearGo, h1]
    · exact ih h2

theorem map_const_eq_replicate (b : BaseRow) :
    ∀ l : List Product, l.map (fun _ => b) = List.replicate l.length b := by
  intro l
  induction l with
  | nil => rfl
  | cons p ps ih => simp [List.replicate_succ, ih]

theorem get_float_zero_str : get_float (some "0") = 0 := by
  with_unfolding_all rfl

/-! ## Claim theorems -/

/-- Claim C4 (confirmed): `get_float` strips every character outside
`[digits . , -]` (pre-stripping them changes nothing), removes commas
(pre-removing them changes nothing), parses the remainder, and degrades to
`0.0` on empty/null input or parse failure; concretely `"$1,500.00" ↦ 1500.0`,
`"" ↦ 0.0`, `"abc" ↦ 0.0`, `None ↦ 0.0`.  As a total function into `ℚ` it
never raises. -/
theorem get_float_coercion :
    (∀ s : String, get_float (some s) = get_float (some ⟨s.data.filter keepNumChar⟩))
    ∧ (∀ s : String,
        get_float (some s) = get_float (some ⟨s.data.filter (fun c => !(c == ','))⟩))
    ∧ get_float (some "$1,500.00") = 1500
    ∧ get_float (some "") = 0
    ∧ get_float (some "abc") = 0
    ∧ get_float none = 0 := by
  have hidem : ∀ l : List Char, (l.filter keepNumChar).filter keepNumChar
      = l.filter keepNumChar := by
    intro l
    rw [List.filter_filter]
    congr 1
    funext c
    exact Bool.and_self _
  refine ⟨?_, ?_, by with_unfolding_all rfl, by with_unfolding_all rfl,
    by with_unfolding_all rfl, rfl⟩
  · intro s
    simp only [get_float]
    rw [hidem]
  · intro s
    have h2 : ∀ l : List Char,
        ((l.filter (fun c => !(c == ','))).filter keepNumChar).filter
            (fun c => !(c == ','))
          = (l.filter keepNumChar).filter (fun c => !(c == ',')) := by
      intro l
      simp only [List.filter_filter]
      congr 1
      funext c
      cases hk : keepNumChar c <;> cases hc : (c == ',') <;> simp [hk, hc]
    simp only [get_float]
    rw [h2]

/-- Claim C5 (confirmed): `process_full` emits exactly one record (carrying
only header fields, `prod = none`) when the detected product list is empty,
and otherwise exactly one record per product; every record of the same
document carries the identical header-field values `baseRow name g raw`. -/
theorem process_full_assembly (name : String) (g : Grid) (raw : List String) :
    (process_full name g raw).map OutRow.base
        = List.replicate (process_full name g raw).length (baseRow name g raw)
    ∧ (process_full name g raw).map OutRow.prod
        = (match extract_products g with
           | [] => [none]
           | ps => ps.map some)
    ∧ (process_full name g raw).length = max 1 (extract_products g).length := by
  cases hp : extract_products g with
  | nil => simp [process_full, hp]
  | cons p ps =>
    refine ⟨?_, ?_, ?_⟩
    · simp only [process_full, hp, List.map_map, List.length_map]
      exact map_const_eq_replicate (baseRow name g raw) (p :: ps)
    · simp only [process_full, hp, List.map_map]
      rfl
    · simp only [process_full, hp, List.length_map, List.length_cons]
      omega

/-- Claim C7 (confirmed): anchor matching is case- and accent-insensitive —
normalization uppercases, trims and de-accents, any two texts with the same
normal form match each other as keyword/cell, and `find_near` with keyword
"CLIENTE" resolves cells spelled "cliente", "CLIENTE" or "Cliénte". -/
theorem normalize_case_accent_insensitive :
    (∀ k v : String, normalize_key k = normalize_key v →
      matchesKeywords [k] v = true)
    ∧ normalize_key "cliente" = "CLIENTE"
    ∧ normalize_key "Cliénte" = "CLIENTE"
    ∧ normalize_key "CLIENTE" = "CLIENTE"
    ∧ normalize_key "  álñé  " = "ALÑE"
    ∧ find_near (cellsOf [[some "cliente", some "ACME1"]]) ["CLIENTE"] true
        = some "ACME1"
    ∧ find_near (cellsOf [[some "CLIENTE", some "ACME2"]]) ["CLIENTE"] true
        = some "ACME2"
    ∧ find_near (cellsOf [[some "Cliénte", some "ACME3"]]) ["CLIENTE"] true
        = some "ACME3" := by
  refine ⟨?_, by decide, by decide, by decide, by decide, by decide, by decide,
    by decide⟩
  intro k v h
  have hc : containsSub (normalize_key v) (normalize_key k) = true := by
    rw [h]
    exact containsSub_self _
  simp [matchesKeywords, hc]

/-- Witness for C7: "CLIENTE" and "cliente" normalize identically, hence
match. -/
theorem normalize_case_accent_insensitive_witness :
    matchesKeywords ["CLIENTE"] "cliente" = true :=
  normalize_case_accent_insensitive.1 "CLIENTE" "cliente" (by decide)

/-- Claim C8 (confirmed): on any grid — the empty grid included — in which no
truthy cell matches any of the given anchor keywords, `find_near` returns the
`none` sentinel; as a total function it never raises. -/
theorem find_near_no_match_sentinel (g : Grid) (ks : List String) (ld : Bool)
    (h : (cellsOf g).all (fun e => !matchesKeywords ks e.2) = true) :
    find_near (cellsOf g) ks ld = none :=
  findNearGo_none (cellsOf g) ks ld (cellsOf g) h

/-- Witness for C8: the empty grid and a keyword-free grid both resolve to
the sentinel. -/
theorem find_near_no_match_sentinel_witness :
    find_near (cellsOf ([] : Grid)) ["CLIENTE"] true = none
    ∧ find_near (cellsOf [[some "HELLO", some "WORLD"]])
        ["CLIENTE", "CUSTOMER", "SOLD TO"] true = none :=
  ⟨find_near_no_match_sentinel [] ["CLIENTE"] true (by decide),
   find_near_no_match_sentinel [[some "HELLO", some "WORLD"]]
     ["CLIENTE", "CUSTOMER", "SOLD TO"] true (by decide)⟩

/-- Claim C9 (corrected), amended part: extraction is deterministic as a
function of the grid and of the fragment enumeration; every field that does
not derive from the raw fragments — anchor-resolved header fields and all
product rows — is independent of the fragment list altogether. -/
theorem process_full_fragment_agnostic (name : String) (g : Grid)
    (l1 l2 : List String) :
    (process_full name g l1).map headerPart
      = (process_full name g l2).map headerPart := by
  cases hp : extract_products g with
  | nil =>
    simp only [process_full, hp]
    with_unfolding_all rfl
  | cons p ps =>
    simp only [process_full, hp, List.map_map]
    with_unfolding_all rfl

/-- Counterexample for C9 as stated: the deduplicated fragment collection is
a Python `set`, whose enumeration order the code does not fix; two
enumerations of the same fragment set (a transposition) yield different
output records (the `Observaciones` field picks a different fragment), so
run-to-run determinism of the full output is not guaranteed by the code. -/
theorem process_full_set_order_counterexample :
    ([c9A, c9B] : List String).Perm [c9B, c9A]
    ∧ process_full "f.xlsx" ([] : Grid) [c9A, c9B]
        ≠ process_full "f.xlsx" ([] : Grid) [c9B, c9A] := by
  constructor
  · exact List.Perm.swap c9B c9A []
  · intro h
    have h1 : (process_full "f.xlsx" ([] : Grid) [c9A, c9B]).map
        (fun r => r.base.observaciones) = [c9A] := by with_unfolding_all rfl
    have h2 : (process_full "f.xlsx" ([] : Grid) [c9B, c9A]).map
        (fun r => r.base.observaciones) = [c9B] := by with_unfolding_all rfl
    rw [h, h2] at h1
    injection h1 with h3 _
    exact absurd h3 (by decide)

/-- Counterexample for C1 as stated: on a grid whose first row below the
header has a blank description cell followed by a live product row, the claim
predicts the scan terminates at the blank cell and yields no record, but the
code emits the later row's record — the first blank description cell does NOT
terminate the scan. -/
theorem blank_row_scan_counterexample :
    extract_products c1Grid = [⟨"PRODUCTO B", 2, 5, 10⟩]
    ∧ extract_products c1Grid ≠ [] := by
  have h1 : extract_products c1Grid = [⟨"PRODUCTO B", 2, 5, 10⟩] := by
    with_unfolding_all rfl
  refine ⟨h1, ?_⟩
  rw [h1]
  intro hh
  exact List.noConfusion hh

/-- Claim C1 (corrected): the row walk reads rows sequentially from the row
immediately below the header to the last row and stops exactly when the
description cell's uppercased text contains "TOTAL" and is shorter than 20
characters; a blank description cell, or one reading "OBSERVACIONES" or
"NOTES", never satisfies the stop test (blank rows are merely skipped because
their price coerces to 0). -/
theorem row_walk_stop_characterization :
    (∀ g : Grid, extract_products g =
      match findHeader g with
      | none => []
      | some hc =>
        match hc.2.desc with
        | none => []
        | some dcol =>
          ((List.range' (hc.1 + 1) (g.length - hc.1)).takeWhile
              (fun i => !stopCond g dcol i)).filterMap (emitRow g hc.2 dcol))
    ∧ (∀ g dcol i, clean_text (cellAt g i dcol) = "" → stopCond g dcol i = false)
    ∧ (∀ g dcol i, clean_text (cellAt g i dcol) = "OBSERVACIONES" →
        stopCond g dcol i = false)
    ∧ (∀ g dcol i, clean_text (cellAt g i dcol) = "NOTES" →
        stopCond g dcol i = false) := by
  refine ⟨?_, ?_, ?_, ?_⟩
  · intro g
    cases h : findHeader g with
    | none => simp [extract_products, h]
    | some hc =>
      obtain ⟨hr, cols⟩ := hc
      cases hd : cols.desc with
      | none => simp [extract_products, h, hd]
      | some dcol =>
        simp only [extract_products, h, hd]
        exact scanRows_eq_takeWhile g cols dcol _
  · intro g dcol i h
    simp only [stopCond, h]
    rfl
  · intro g dcol i h
    simp only [stopCond, h]
    rfl
  · intro g dcol i h
    simp only [stopCond, h]
    rfl

/-- Witness for C1 (amended): the blank description cell of `c1Grid`'s second
row does not satisfy the stop test. -/
theorem row_walk_stop_characterization_witness :
    stopCond c1Grid 1 2 = false :=
  row_walk_stop_characterization.2.1 c1Grid 1 2 (by decide)

/-- Counterexample for C2 as stated: keyword "DESCRIPCION" against cell text
"DESCRIPCIONADICIONAL" is claimed to never match, yet `find_near` matches the
cell and returns its right neighbour. -/
theorem substring_match_counterexample :
    find_near (cellsOf c2Grid) ["DESCRIPCION"] true = some "VALOR" := by
  decide

/-- Claim C2 (corrected): anchor matching holds exactly when some keyword's
normalized text occurs as a (not necessarily token-bounded) substring of the
normalized cell text; in particular "DESCRIPCIONADICIONAL" does match keyword
"DESCRIPCION". -/
theorem substring_match_characterization :
    (∀ ks v, matchesKeywords ks v = true ↔
      ∃ k ∈ ks, ∃ p t, (normalize_key v).data = p ++ (normalize_key k).data ++ t)
    ∧ matchesKeywords ["DESCRIPCION"] "DESCRIPCIONADICIONAL" = true := by
  constructor
  · intro ks v
    rw [matchesKeywords, List.any_eq_true]
    refine exists_congr fun k => and_congr_right fun _ => ?_
    simp only [containsSub]
    exact subOccurs_iff _ _
  · decide

/-- Witness for C2 (amended): a space-bounded occurrence is in particular a
substring occurrence, so it matches. -/
theorem substring_match_characterization_witness :
    matchesKeywords ["CLIENTE"] "MI CLIENTE FINAL" = true :=
  (substring_match_characterization.1 ["CLIENTE"] "MI CLIENTE FINAL").mpr
    ⟨"CLIENTE", by simp, "MI ".data, " FINAL".data, by decide⟩

/-- Counterexample for C3 as stated: a row whose total cell coerces to the
negative value -5 should, per the claim, carry line-total -5; the code takes
the `total > 0` branch and emits quantity × price = 6 instead. -/
theorem negative_total_counterexample :
    extract_products c3Grid = [⟨"X", 2, 3, 6⟩]
    ∧ get_float (some "-5") = -5 :=
  ⟨by with_unfolding_all rfl, by with_unfolding_all rfl⟩

/-- Claim C3 (corrected): an emitted record's line-total equals quantity ×
unit-price whenever the coerced total is not strictly positive (absent column
included, since an absent column coerces to 0), and equals the coerced total
cell value only when that value is strictly positive. -/
theorem line_total_default :
    (∀ g cols dcol i p, emitRow g cols dcol i = some p →
      (rowTotal g cols i ≤ 0 → p.totalLinea = p.cantidad * p.precio)
      ∧ (0 < rowTotal g cols i → p.totalLinea = rowTotal g cols i))
    ∧ (∀ g cols i, cols.total = none → rowTotal g cols i = 0)
    ∧ extract_products c3bGrid = [⟨"CAJAS", 500, 20, 10000⟩] := by
  refine ⟨?_, ?_, by with_unfolding_all rfl⟩
  · intro g cols dcol i p h
    obtain ⟨hp, rfl⟩ := emitRow_some_eq g cols dcol i p h
    constructor
    · intro hle
      have hnot : ¬ (0 < rowTotal g cols i) := not_lt.mpr hle
      simp [hnot]
    · intro hlt
      simp [hlt]
  · intro g cols i h
    simp only [rowTotal, h]
    exact get_float_zero_str

/-- Witness for C3 (amended): the `c3bGrid` row (total column absent,
quantity 500, price 20) defaults its line-total to 500 × 20 = 10000. -/
theorem line_total_default_witness :
    (⟨"CAJAS", 500, 20, 10000⟩ : Product).totalLinea
      = (⟨"CAJAS", 500, 20, 10000⟩ : Product).cantidad
          * (⟨"CAJAS", 500, 20, 10000⟩ : Product).precio := by
  have happ := (line_total_default.1 c3bGrid ⟨some 1, some 2, some 3, none⟩ 1 2
    ⟨"CAJAS", 500, 20, 10000⟩ (by with_unfolding_all rfl)).1
  have h0 : rowTotal c3bGrid ⟨some 1, some 2, some 3, none⟩ 2 = 0 := by
    with_unfolding_all rfl
  exact happ (by rw [h0])

/-- Counterexample for C6 as stated: with day/month/year anchors resolving to
"15"/"03"/"2024" the claim predicts "15 de Marzo de 2024"; the code composes
"15-03-2024" — there is no month-name table in this engine. -/
theorem date_composition_counterexample :
    fechaF c6Grid = some "15-03-2024"
    ∧ fechaF c6Grid ≠ some "15 de Marzo de 2024" := by
  exact ⟨by decide, by decide⟩

/-- Claim C6 (corrected): when the direct FECHA/DATE anchor is unresolved and
the three day/month/year anchors all resolve (to truthy values), the composed
date is the plain join day-month-year with hyphens and no month-name mapping;
when any one of the day, month or year anchors is also unresolved, the date
stays the unresolved `none` sentinel. -/
theorem date_fallback_characterization :
    (∀ (g : Grid) (ds ms ys : String),
      find_near (cellsOf g) ["FECHA", "DATE"] true = none →
      find_near (cellsOf g) ["YEAR", "AÑO"] true = some ys → ys ≠ "" →
      find_near (cellsOf g) ["MONTH", "MES"] true = some ms → ms ≠ "" →
      find_near (cellsOf g) ["DAY", "DIA"] true = some ds → ds ≠ "" →
      fechaF g = some (ds ++ "-" ++ ms ++ "-" ++ ys))
    ∧ (∀ g : Grid, find_near (cellsOf g) ["FECHA", "DATE"] true = none →
      (find_near (cellsOf g) ["YEAR", "AÑO"] true = none
        ∨ find_near (cellsOf g) ["MONTH", "MES"] true = none
        ∨ find_near (cellsOf g) ["DAY", "DIA"] true = none) →
      fechaF g = none) := by
  constructor
  · intro g ds ms ys h0 hy hy' hm hm' hd hd'
    have hys : (ys == "") = false := beq_eq_false_iff_ne.mpr hy'
    have hms : (ms == "") = false := beq_eq_false_iff_ne.mpr hm'
    have hds : (ds == "") = false := beq_eq_false_iff_ne.mpr hd'
    simp [fechaF, h0, hy, hm, hd, truthy, hys, hms, hds]
  · intro g h0 hcase
    rcases hcase with hy | hm | hd
    · simp [fechaF, h0, hy, truthy]
    · simp [fechaF, h0, hm, truthy]
    · simp [fechaF, h0, hd, truthy]

/-- Witness for C6 (amended): applying the join rule on `c6Grid` gives
"15-03-2024". -/
theorem date_fallback_characterization_witness :
    fechaF c6Grid = some ("15" ++ "-" ++ "03" ++ "-" ++ "2024") :=
  date_fallback_characterization.1 c6Grid "15" "03" "2024" (by decide)
    (by decide) (by decide) (by decide) (by decide) (by decide) (by decide)

/-- Claim C10 (confirmed): every emitted product record has a strictly
positive coerced unit price; a row that fails the stop test and emits nothing
(price missing/zero/unparseable) is skipped without terminating the scan; on
`c10Grid` the zero-price row is skipped and the later row still emitted, and
on the spec's worked example the blank trailing row contributes nothing
(its price coerces to 0) so exactly one record is produced. -/
theorem price_gate :
    (∀ g : Grid,
      (extract_products g).all (fun p => decide ((0 : ℚ) < p.precio)) = true)
    ∧ (∀ g cols dcol i rest, stopCond g dcol i = false →
        emitRow g cols dcol i = none →
        scanRows g cols dcol (i :: rest) = scanRows g cols dcol rest)
    ∧ extract_products c10Grid = [⟨"ITEM REAL", 7, 4, 28⟩]
    ∧ stopCond c10SpecGrid 2 3 = false
    ∧ emitRow c10SpecGrid ⟨some 2, some 3, some 4, some 5⟩ 2 3 = none
    ∧ extract_products c10SpecGrid
        = [⟨"CAJAS DE ARANDANOS", 1000, 15, 15000⟩] := by
  refine ⟨?_, ?_, by with_unfolding_all rfl, by decide,
    by with_unfolding_all rfl, by with_unfolding_all rfl⟩
  · intro g
    cases h : findHeader g with
    | none => simp [extract_products, h]
    | some hc =>
      obtain ⟨hr, cols⟩ := hc
      cases hd : cols.desc with
      | none => simp [extract_products, h, hd]
      | some dcol =>
        simp only [extract_products, h, hd]
        exact scanRows_all_pos g cols dcol _
  · intro g cols dcol i rest h1 h2
    rw [scanRows]
    simp [h1, h2]

/-- Witness for C10: on the spec example grid, the blank third row is skipped
without ending the walk. -/
theorem price_gate_witness :
    scanRows c10SpecGrid ⟨some 2, some 3, some 4, some 5⟩ 2 [3]
      = scanRows c10SpecGrid ⟨some 2, some 3, some 4, some 5⟩ 2 [] :=
  price_gate.2.1 c10SpecGrid ⟨some 2, some 3, some 4, some 5⟩ 2 3 []
    (by decide) (by with_unfolding_all rfl)
